import Mathlib

/-!
Verification of the year-by-year simulation core of `einnahmencalc`
(`main.py`): the three simulation functions `simulate_tagesgeld`,
`simulate_etf`, `simulate_combo` and the helper `real_value`, embedded
shallowly over `ℚ` (Python floats are modelled as exact rationals; the
claims are about the exact arithmetic relationships of the code).
Year counters (`deposit_years`, `growth_years`, `years_first_target`,
the running `year`) are natural numbers.
-/

/-- The per-year record emitted by every simulation
(Python dataclass `YearResult`). -/
structure YearResult where
  year : ℕ
  deposit : ℚ
  tg_balance : ℚ
  etf_balance : ℚ
  total_nominal : ℚ
  total_real : ℚ
deriving Repr, DecidableEq

/-- Present-value helper of main.py:
`real_value(nominal, inflation_rate, year) = nominal / (1+inflation_rate)**year`. -/
def real_value (nominal : ℚ) (inflation_rate : ℚ) (year : ℕ) : ℚ :=
  nominal / ((1 + inflation_rate) ^ year)

/-- Loop body plus recursion of `simulate_tagesgeld`: `n` remaining
iterations, current loop variable `year`, running `tg_balance`. -/
def simulate_tagesgeld_from (deposit_years : ℕ)
    (annual_deposit tg_rate inflation_rate : ℚ) :
    ℕ → ℕ → ℚ → List YearResult
  | 0, _, _ => []
  | n + 1, year, tg_balance =>
    let deposit := if year ≤ deposit_years then annual_deposit else 0
    let tg_balance2 := (tg_balance + deposit) * (1 + tg_rate)
    let total_nominal := tg_balance2
    let total_real := real_value total_nominal inflation_rate year
    { year := year, deposit := deposit, tg_balance := tg_balance2,
      etf_balance := 0, total_nominal := total_nominal,
      total_real := total_real }
      :: simulate_tagesgeld_from deposit_years annual_deposit tg_rate
          inflation_rate n (year + 1) tg_balance2

/-- `simulate_tagesgeld`: savings-only simulation (main.py lines 102-129). -/
def simulate_tagesgeld (deposit_years growth_years : ℕ)
    (annual_deposit tg_rate inflation_rate : ℚ) : List YearResult :=
  simulate_tagesgeld_from deposit_years annual_deposit tg_rate inflation_rate
    (deposit_years + growth_years) 1 0

/-- Loop body plus recursion of `simulate_etf`. -/
def simulate_etf_from (deposit_years : ℕ)
    (annual_deposit etf_rate inflation_rate : ℚ) :
    ℕ → ℕ → ℚ → List YearResult
  | 0, _, _ => []
  | n + 1, year, etf_balance =>
    let deposit := if year ≤ deposit_years then annual_deposit else 0
    let etf_balance2 := (etf_balance + deposit) * (1 + etf_rate)
    let total_nominal := etf_balance2
    let total_real := real_value total_nominal inflation_rate year
    { year := year, deposit := deposit, tg_balance := 0,
      etf_balance := etf_balance2, total_nominal := total_nominal,
      total_real := total_real }
      :: simulate_etf_from deposit_years annual_deposit etf_rate
          inflation_rate n (year + 1) etf_balance2

/-- `simulate_etf`: growth-asset-only simulation (main.py lines 132-159). -/
def simulate_etf (deposit_years growth_years : ℕ)
    (annual_deposit etf_rate inflation_rate : ℚ) : List YearResult :=
  simulate_etf_from deposit_years annual_deposit etf_rate inflation_rate
    (deposit_years + growth_years) 1 0

/-- Parameter record for the hybrid simulation `simulate_combo`
(all per-year-relevant parameters; `growth_years` only fixes the length). -/
structure ComboParams where
  deposit_years : ℕ
  annual_deposit : ℚ
  tg_rate : ℚ
  etf_rate : ℚ
  inflation_rate : ℚ
  tg_target_first : ℚ
  tg_target_after : ℚ
  years_first_target : ℕ
deriving Repr, DecidableEq

/-- Allocation phase of a combo year (main.py lines 190-200): given this
year's `target` and `deposit`, fill the Tagesgeld bucket up to the target
first; returns the new `tg_balance` and the `remaining` part of the
deposit, which the caller adds to the ETF bucket. -/
def combo_alloc (target deposit tg_balance : ℚ) : ℚ × ℚ :=
  if tg_balance < target ∧ 0 < deposit then
    let needed := target - tg_balance
    let alloc := min deposit needed
    (tg_balance + alloc, deposit - alloc)
  else
    (tg_balance, deposit)

/-- Rebalancing sweep of a combo year (main.py lines 206-210): excess of
the post-compounding Tagesgeld balance over `target` moves to the ETF
bucket; the Tagesgeld balance is clamped to `target`. -/
def combo_sweep (target tg_balance etf_balance : ℚ) : ℚ × ℚ :=
  if target < tg_balance then
    (target, etf_balance + (tg_balance - target))
  else
    (tg_balance, etf_balance)

/-- One loop iteration of `simulate_combo` (main.py lines 184-224):
target selection, deposit selection, allocation, compounding, sweep,
snapshot. Returns the snapshot and the two outgoing balances. -/
def combo_step (p : ComboParams) (year : ℕ) (tg_balance etf_balance : ℚ) :
    YearResult × ℚ × ℚ :=
  let target :=
    if year ≤ p.years_first_target then p.tg_target_first else p.tg_target_after
  let deposit := if year ≤ p.deposit_years then p.annual_deposit else 0
  let a := combo_alloc target deposit tg_balance
  let tg1 := a.1
  let etf1 := etf_balance + a.2
  let tg2 := tg1 * (1 + p.tg_rate)
  let etf2 := etf1 * (1 + p.etf_rate)
  let s := combo_sweep target tg2 etf2
  let tg3 := s.1
  let etf3 := s.2
  let total_nominal := tg3 + etf3
  let total_real := real_value total_nominal p.inflation_rate year
  ({ year := year, deposit := deposit, tg_balance := tg3,
     etf_balance := etf3, total_nominal := total_nominal,
     total_real := total_real }, tg3, etf3)

/-- Loop of `simulate_combo`: `n` remaining iterations, loop variable
`year`, running balances. -/
def simulate_combo_from (p : ComboParams) :
    ℕ → ℕ → ℚ → ℚ → List YearResult
  | 0, _, _, _ => []
  | n + 1, year, tg_balance, etf_balance =>
    let st := combo_step p year tg_balance etf_balance
    st.1 :: simulate_combo_from p n (year + 1) st.2.1 st.2.2

/-- `simulate_combo`: hybrid simulation (main.py lines 162-225). -/
def simulate_combo (deposit_years growth_years : ℕ)
    (annual_deposit tg_rate etf_rate inflation_rate : ℚ)
    (tg_target_first tg_target_after : ℚ) (years_first_target : ℕ) :
    List YearResult :=
  simulate_combo_from
    { deposit_years := deposit_years, annual_deposit := annual_deposit,
      tg_rate := tg_rate, etf_rate := etf_rate,
      inflation_rate := inflation_rate, tg_target_first := tg_target_first,
      tg_target_after := tg_target_after,
      years_first_target := years_first_target }
    (deposit_years + growth_years) 1 0 0

/-- The year-indexed balance recurrence the spec states for the two pure
simulations (§4.1/§4.2): start at 0; each year add the deposit (the annual
deposit while `y ≤ deposit_years`, afterwards 0), then multiply by
`(1 + rate)`. Reference definition written from the spec's words, to be
compared against `simulate_tagesgeld` / `simulate_etf`. -/
def ref_balance (deposit_years : ℕ) (annual_deposit rate : ℚ) : ℕ → ℚ
  | 0 => 0
  | y + 1 =>
    (ref_balance deposit_years annual_deposit rate y +
        (if y + 1 ≤ deposit_years then annual_deposit else 0)) * (1 + rate)

example :
    simulate_tagesgeld 1 0 1000 (1/10) 0
      = [{ year := 1, deposit := 1000, tg_balance := 1100, etf_balance := 0,
           total_nominal := 1100, total_real := 1100 }] := by
  norm_num [simulate_tagesgeld, simulate_tagesgeld_from, real_value]

example :
    (simulate_combo 2 0 1000 0 0 0 500 500 1).map
        (fun r => (r.year, r.tg_balance, r.etf_balance, r.total_nominal))
      = [(1, 500, 500, 1000), (2, 500, 1500, 2000)] := by
  norm_num [simulate_combo, simulate_combo_from, combo_step, combo_alloc,
    combo_sweep, real_value]

/-- C1: in `simulate_combo`, with `target = tg_target_first` for years up to
`years_first_target` and `tg_target_after` afterwards, a year's deposit is
allocated as follows: if the Tagesgeld balance is strictly below `target`
and the deposit is positive, the Tagesgeld bucket gains
`min deposit (target - tg_balance)` and the remainder of the deposit is the
part handed to the ETF bucket; if the Tagesgeld balance already meets or
exceeds `target`, the entire deposit goes to the ETF bucket. -/
theorem combo_allocation_rule (p : ComboParams) (year : ℕ) (tg : ℚ) :
    let target :=
      if year ≤ p.years_first_target then p.tg_target_first else p.tg_target_after
    let deposit := if year ≤ p.deposit_years then p.annual_deposit else 0
    (tg < target → 0 < deposit →
      combo_alloc target deposit tg
        = (tg + min deposit (target - tg), deposit - min deposit (target - tg))) ∧
    (target ≤ tg → combo_alloc target deposit tg = (tg, deposit)) := by
  intro target deposit
  constructor
  · intro h1 h2
    unfold combo_alloc
    rw [if_pos ⟨h1, h2⟩]
  · intro h
    unfold combo_alloc
    rw [if_neg]
    intro hc
    exact absurd hc.1 (not_lt.mpr h)

/-- Witness for C1: both branches of the allocation rule at concrete
inputs (target 500, deposit 1000; balances 0 and 600). -/
theorem combo_allocation_rule_witness :
    combo_alloc 500 1000 0 = (500, 500) ∧ combo_alloc 500 1000 600 = (600, 1000) := by
  have h1 := (combo_allocation_rule
    { deposit_years := 2, annual_deposit := 1000, tg_rate := 0, etf_rate := 0,
      inflation_rate := 0, tg_target_first := 500, tg_target_after := 500,
      years_first_target := 1 } 1 0).1 (by norm_num) (by norm_num)
  have h2 := (combo_allocation_rule
    { deposit_years := 2, annual_deposit := 1000, tg_rate := 0, etf_rate := 0,
      inflation_rate := 0, tg_target_first := 500, tg_target_after := 500,
      years_first_target := 1 } 1 600).2 (by norm_num)
  norm_num at h1 h2
  exact ⟨h1, h2⟩

/-- C2: in a `simulate_combo` year, if after compounding both buckets the
Tagesgeld balance `tg2` strictly exceeds the year's target, the emitted
snapshot has Tagesgeld balance exactly `target` and ETF balance exactly
`etf2 + (tg2 - target)`: precisely the excess moved over. (The witness
instantiates the phase-change year with `tg_target_after < tg_target_first`,
where the now-excess balance is swept in that same year.) -/
theorem combo_sweep_rule (p : ComboParams) (year : ℕ) (tg etf : ℚ) :
    let target :=
      if year ≤ p.years_first_target then p.tg_target_first else p.tg_target_after
    let deposit := if year ≤ p.deposit_years then p.annual_deposit else 0
    let a := combo_alloc target deposit tg
    let tg2 := a.1 * (1 + p.tg_rate)
    let etf2 := (etf + a.2) * (1 + p.etf_rate)
    target < tg2 →
      (combo_step p year tg etf).1.tg_balance = target ∧
      (combo_step p year tg etf).1.etf_balance = etf2 + (tg2 - target) := by
  intro target deposit a tg2 etf2 h
  have hsweep : combo_sweep target tg2 etf2 = (target, etf2 + (tg2 - target)) := by
    unfold combo_sweep
    rw [if_pos h]
  refine ⟨?_, ?_⟩
  · show (combo_sweep target tg2 etf2).1 = target
    rw [hsweep]
  · show (combo_sweep target tg2 etf2).2 = etf2 + (tg2 - target)
    rw [hsweep]

/-- Witness for C2: the target drops from 1000 (phase 1, one year) to 500 in
year 2; with a Tagesgeld balance of 1000, no deposit and zero rates, the
year-2 snapshot clamps Tagesgeld to 500 and moves the excess 500 to ETF. -/
theorem combo_sweep_rule_witness :
    (combo_step
        { deposit_years := 0, annual_deposit := 0, tg_rate := 0, etf_rate := 0,
          inflation_rate := 0, tg_target_first := 1000, tg_target_after := 500,
          years_first_target := 1 } 2 1000 0).1.tg_balance = 500 ∧
    (combo_step
        { deposit_years := 0, annual_deposit := 0, tg_rate := 0, etf_rate := 0,
          inflation_rate := 0, tg_target_first := 1000, tg_target_after := 500,
          years_first_target := 1 } 2 1000 0).1.etf_balance = 500 := by
  have h := combo_sweep_rule
    { deposit_years := 0, annual_deposit := 0, tg_rate := 0, etf_rate := 0,
      inflation_rate := 0, tg_target_first := 1000, tg_target_after := 500,
      years_first_target := 1 } 2 1000 0 (by norm_num [combo_alloc])
  norm_num [combo_alloc] at h
  exact h

/-- C9: `simulate_tagesgeld` with one deposit year, no growth years, an
annual deposit of 1000 and a 10% rate returns a single snapshot with
deposit 1000, Tagesgeld balance exactly 1100 and nominal total exactly
1100 (for any inflation rate). -/
theorem tagesgeld_scenario_one (ir : ℚ) :
    ∃ r, simulate_tagesgeld 1 0 1000 (1/10) ir = [r] ∧
      r.deposit = 1000 ∧ r.tg_balance = 1100 ∧ r.total_nominal = 1100 := by
  refine ⟨{ year := 1, deposit := 1000, tg_balance := 1100, etf_balance := 0,
            total_nominal := 1100, total_real := real_value 1100 ir 1 },
    ?_, rfl, rfl, rfl⟩
  norm_num [simulate_tagesgeld, simulate_tagesgeld_from]

lemma tg_from_snap (dy : ℕ) (ad tr ir : ℚ) :
    ∀ (n y : ℕ) (b : ℚ) (r : YearResult),
      r ∈ simulate_tagesgeld_from dy ad tr ir n y b →
        r.etf_balance = 0 ∧ r.total_nominal = r.tg_balance ∧
          r.total_real = real_value r.total_nominal ir r.year := by
  intro n
  induction n with
  | zero =>
    intro y b r hr
    simp [simulate_tagesgeld_from] at hr
  | succ n ih =>
    intro y b r hr
    simp only [simulate_tagesgeld_from, List.mem_cons] at hr
    rcases hr with h | h
    · subst h
      exact ⟨rfl, rfl, rfl⟩
    · exact ih _ _ _ h

lemma etf_from_snap (dy : ℕ) (ad er ir : ℚ) :
    ∀ (n y : ℕ) (b : ℚ) (r : YearResult),
      r ∈ simulate_etf_from dy ad er ir n y b →
        r.tg_balance = 0 ∧ r.total_nominal = r.etf_balance ∧
          r.total_real = real_value r.total_nominal ir r.year := by
  intro n
  induction n with
  | zero =>
    intro y b r hr
    simp [simulate_etf_from] at hr
  | succ n ih =>
    intro y b r hr
    simp only [simulate_etf_from, List.mem_cons] at hr
    rcases hr with h | h
    · subst h
      exact ⟨rfl, rfl, rfl⟩
    · exact ih _ _ _ h

lemma combo_sweep_fst_le (target tg etf : ℚ) :
    (combo_sweep target tg etf).1 ≤ target := by
  unfold combo_sweep
  by_cases h : target < tg
  · rw [if_pos h]
  · rw [if_neg h]
    exact le_of_not_lt h

lemma combo_sweep_sum (target tg etf : ℚ) :
    (combo_sweep target tg etf).1 + (combo_sweep target tg etf).2 = tg + etf := by
  unfold combo_sweep
  by_cases h : target < tg
  · rw [if_pos h]
    ring
  · rw [if_neg h]

lemma combo_from_snap (p : ComboParams) :
    ∀ (n y : ℕ) (tg etf : ℚ) (r : YearResult),
      r ∈ simulate_combo_from p n y tg etf →
        r.total_nominal = r.tg_balance + r.etf_balance ∧
          r.total_real = real_value r.total_nominal p.inflation_rate r.year ∧
          r.tg_balance ≤
            (if r.year ≤ p.years_first_target then p.tg_target_first
              else p.tg_target_after) := by
  intro n
  induction n with
  | zero =>
    intro y tg etf r hr
    simp [simulate_combo_from] at hr
  | succ n ih =>
    intro y tg etf r hr
    simp only [simulate_combo_from, List.mem_cons] at hr
    rcases hr with h | h
    · subst h
      refine ⟨rfl, rfl, ?_⟩
      exact combo_sweep_fst_le _ _ _
    · exact ih _ _ _ _ h

/-- C3: in every snapshot of all three simulations, `total_nominal` equals
exactly `tg_balance + etf_balance`. -/
theorem total_nominal_eq_sum (dy gy yft : ℕ) (ad tr er ir tf ta : ℚ) :
    (∀ r ∈ simulate_tagesgeld dy gy ad tr ir,
        r.total_nominal = r.tg_balance + r.etf_balance) ∧
    (∀ r ∈ simulate_etf dy gy ad er ir,
        r.total_nominal = r.tg_balance + r.etf_balance) ∧
    (∀ r ∈ simulate_combo dy gy ad tr er ir tf ta yft,
        r.total_nominal = r.tg_balance + r.etf_balance) := by
  refine ⟨?_, ?_, ?_⟩
  · intro r hr
    obtain ⟨h0, h1, -⟩ := tg_from_snap dy ad tr ir _ _ _ r hr
    rw [h0, add_zero]
    exact h1
  · intro r hr
    obtain ⟨h0, h1, -⟩ := etf_from_snap dy ad er ir _ _ _ r hr
    rw [h0, zero_add]
    exact h1
  · intro r hr
    exact (combo_from_snap _ _ _ _ _ r hr).1

/-- Witness for C3: the single snapshot of the concrete savings-only run
with one deposit year satisfies the invariant. -/
theorem total_nominal_eq_sum_witness :
    ({ year := 1, deposit := 1000, tg_balance := 1100, etf_balance := 0,
        total_nominal := 1100, total_real := 1100 } : YearResult).total_nominal
      = ({ year := 1, deposit := 1000, tg_balance := 1100, etf_balance := 0,
            total_nominal := 1100, total_real := 1100 } : YearResult).tg_balance
        + ({ year := 1, deposit := 1000, tg_balance := 1100, etf_balance := 0,
              total_nominal := 1100, total_real := 1100 } : YearResult).etf_balance := by
  refine (total_nominal_eq_sum 1 0 0 1000 (1/10) 0 0 0 0).1 _ ?_
  norm_num [simulate_tagesgeld, simulate_tagesgeld_from, real_value]

lemma real_value_eq_div (n ir : ℚ) (y : ℕ) :
    real_value n ir y = n / (1 + ir) ^ y := rfl

lemma real_value_zero_inflation (n : ℚ) (y : ℕ) : real_value n 0 y = n := by
  simp [real_value]

/-- C6: in every snapshot of all three simulations, `total_real` equals
`total_nominal / (1 + inflation_rate) ^ year`; with zero inflation,
`total_real = total_nominal`. -/
theorem total_real_discount (dy gy yft : ℕ) (ad tr er ir tf ta : ℚ) :
    (∀ r ∈ simulate_tagesgeld dy gy ad tr ir,
        r.total_real = r.total_nominal / (1 + ir) ^ r.year ∧
          (ir = 0 → r.total_real = r.total_nominal)) ∧
    (∀ r ∈ simulate_etf dy gy ad er ir,
        r.total_real = r.total_nominal / (1 + ir) ^ r.year ∧
          (ir = 0 → r.total_real = r.total_nominal)) ∧
    (∀ r ∈ simulate_combo dy gy ad tr er ir tf ta yft,
        r.total_real = r.total_nominal / (1 + ir) ^ r.year ∧
          (ir = 0 → r.total_real = r.total_nominal)) := by
  have key : ∀ (r : YearResult),
      r.total_real = real_value r.total_nominal ir r.year →
        r.total_real = r.total_nominal / (1 + ir) ^ r.year ∧
          (ir = 0 → r.total_real = r.total_nominal) := by
    intro r h
    constructor
    · rw [h, real_value_eq_div]
    · intro h0
      rw [h, h0, real_value_zero_inflation]
  refine ⟨?_, ?_, ?_⟩
  · intro r hr
    exact key r (tg_from_snap dy ad tr ir _ _ _ r hr).2.2
  · intro r hr
    exact key r (etf_from_snap dy ad er ir _ _ _ r hr).2.2
  · intro r hr
    exact key r (combo_from_snap _ _ _ _ _ r hr).2.1

/-- Witness for C6: the concrete savings-only run with zero inflation;
its single snapshot has `total_real = total_nominal / (1+0)^year`. -/
theorem total_real_discount_witness :
    (1100 : ℚ) = 1100 / (1 + 0) ^ (1 : ℕ) := by
  have h := ((total_real_discount 1 0 0 1000 (1/10) 0 0 0 0).1
    { year := 1, deposit := 1000, tg_balance := 1100, etf_balance := 0,
      total_nominal := 1100, total_real := 1100 }
    (by norm_num [simulate_tagesgeld, simulate_tagesgeld_from, real_value])).1
  exact h

/-- C10: in every snapshot of `simulate_combo`, on any inputs, the
Tagesgeld balance is at most that year's target (`tg_target_first` while
`year ≤ years_first_target`, `tg_target_after` afterwards). -/
theorem combo_tg_le_target (dy gy yft : ℕ) (ad tr er ir tf ta : ℚ) :
    ∀ r ∈ simulate_combo dy gy ad tr er ir tf ta yft,
      r.tg_balance ≤ (if r.year ≤ yft then tf else ta) := by
  intro r hr
  exact (combo_from_snap _ _ _ _ _ r hr).2.2

/-- Witness for C10: concrete hybrid run, year-1 snapshot. -/
theorem combo_tg_le_target_witness :
    ({ year := 1, deposit := 1000, tg_balance := 500, etf_balance := 500,
        total_nominal := 1000, total_real := 1000 } : YearResult).tg_balance
      ≤ (if ({ year := 1, deposit := 1000, tg_balance := 500, etf_balance := 500,
               total_nominal := 1000, total_real := 1000 } : YearResult).year ≤ 1
          then (500 : ℚ) else 500) := by
  refine combo_tg_le_target 2 0 1 1000 0 0 0 500 500 _ ?_
  norm_num [simulate_combo, simulate_combo_from, combo_step, combo_alloc,
    combo_sweep, real_value]

lemma tg_from_years (dy : ℕ) (ad tr ir : ℚ) :
    ∀ (n y : ℕ) (b : ℚ),
      (simulate_tagesgeld_from dy ad tr ir n y b).map (fun r => r.year)
        = List.range' y n := by
  intro n
  induction n with
  | zero =>
    intro y b
    rfl
  | succ n ih =>
    intro y b
    rw [List.range'_succ]
    simp only [simulate_tagesgeld_from, List.map_cons]
    exact congrArg _ (ih (y + 1) _)

lemma etf_from_years (dy : ℕ) (ad er ir : ℚ) :
    ∀ (n y : ℕ) (b : ℚ),
      (simulate_etf_from dy ad er ir n y b).map (fun r => r.year)
        = List.range' y n := by
  intro n
  induction n with
  | zero =>
    intro y b
    rfl
  | succ n ih =>
    intro y b
    rw [List.range'_succ]
    simp only [simulate_etf_from, List.map_cons]
    exact congrArg _ (ih (y + 1) _)

lemma combo_from_years (p : ComboParams) :
    ∀ (n y : ℕ) (tg etf : ℚ),
      (simulate_combo_from p n y tg etf).map (fun r => r.year)
        = List.range' y n := by
  intro n
  induction n with
  | zero =>
    intro y tg etf
    rfl
  | succ n ih =>
    intro y tg etf
    rw [List.range'_succ]
    simp only [simulate_combo_from, List.map_cons]
    exact congrArg _ (ih (y + 1) _ _)

/-- C5: each of the three simulations returns a sequence of length exactly
`deposit_years + growth_years`, whose `year` fields are exactly
`1, 2, ..., N` in order with no gaps (empty when `N = 0`). -/
theorem sequence_length_and_years (dy gy yft : ℕ) (ad tr er ir tf ta : ℚ) :
    ((simulate_tagesgeld dy gy ad tr ir).length = dy + gy ∧
      (simulate_tagesgeld dy gy ad tr ir).map (fun r => r.year)
        = List.range' 1 (dy + gy)) ∧
    ((simulate_etf dy gy ad er ir).length = dy + gy ∧
      (simulate_etf dy gy ad er ir).map (fun r => r.year)
        = List.range' 1 (dy + gy)) ∧
    ((simulate_combo dy gy ad tr er ir tf ta yft).length = dy + gy ∧
      (simulate_combo dy gy ad tr er ir tf ta yft).map (fun r => r.year)
        = List.range' 1 (dy + gy)) := by
  have h1 := tg_from_years dy ad tr ir (dy + gy) 1 0
  have h2 := etf_from_years dy ad er ir (dy + gy) 1 0
  have h3 := combo_from_years
    { deposit_years := dy, annual_deposit := ad, tg_rate := tr, etf_rate := er,
      inflation_rate := ir, tg_target_first := tf, tg_target_after := ta,
      years_first_target := yft } (dy + gy) 1 0 0
  refine ⟨⟨?_, h1⟩, ⟨?_, h2⟩, ⟨?_, h3⟩⟩
  · have := congrArg List.length h1
    simpa using this
  · have := congrArg List.length h2
    simpa using this
  · have := congrArg List.length h3
    simpa using this

lemma tg_from_eq_ref (dy : ℕ) (ad tr ir : ℚ) :
    ∀ (n y0 : ℕ),
      simulate_tagesgeld_from dy ad tr ir n (y0 + 1) (ref_balance dy ad tr y0)
        = (List.range' (y0 + 1) n).map (fun y =>
            { year := y, deposit := if y ≤ dy then ad else 0,
              tg_balance := ref_balance dy ad tr y, etf_balance := 0,
              total_nominal := ref_balance dy ad tr y,
              total_real := real_value (ref_balance dy ad tr y) ir y }) := by
  intro n
  induction n with
  | zero =>
    intro y0
    rfl
  | succ n ih =>
    intro y0
    rw [List.range'_succ, List.map_cons]
    show _ :: _ = _ :: _
    congr 1
    exact ih (y0 + 1)

lemma etf_from_eq_ref (dy : ℕ) (ad er ir : ℚ) :
    ∀ (n y0 : ℕ),
      simulate_etf_from dy ad er ir n (y0 + 1) (ref_balance dy ad er y0)
        = (List.range' (y0 + 1) n).map (fun y =>
            { year := y, deposit := if y ≤ dy then ad else 0,
              tg_balance := 0, etf_balance := ref_balance dy ad er y,
              total_nominal := ref_balance dy ad er y,
              total_real := real_value (ref_balance dy ad er y) ir y }) := by
  intro n
  induction n with
  | zero =>
    intro y0
    rfl
  | succ n ih =>
    intro y0
    rw [List.range'_succ, List.map_cons]
    show _ :: _ = _ :: _
    congr 1
    exact ih (y0 + 1)

/-- C4: both pure simulations compute exactly the spec's recurrence
(`ref_balance`: start at 0, add the deposit while `y ≤ deposit_years`,
then multiply by `1 + rate`); `simulate_tagesgeld` reports it in
`tg_balance` with `etf_balance = 0` in every snapshot, and `simulate_etf`
reports it in `etf_balance` with `tg_balance = 0`. -/
theorem pure_sims_follow_recurrence (dy gy : ℕ) (ad tr er ir : ℚ) :
    simulate_tagesgeld dy gy ad tr ir
      = (List.range' 1 (dy + gy)).map (fun y =>
          { year := y, deposit := if y ≤ dy then ad else 0,
            tg_balance := ref_balance dy ad tr y, etf_balance := 0,
            total_nominal := ref_balance dy ad tr y,
            total_real := real_value (ref_balance dy ad tr y) ir y }) ∧
    simulate_etf dy gy ad er ir
      = (List.range' 1 (dy + gy)).map (fun y =>
          { year := y, deposit := if y ≤ dy then ad else 0,
            tg_balance := 0, etf_balance := ref_balance dy ad er y,
            total_nominal := ref_balance dy ad er y,
            total_real := real_value (ref_balance dy ad er y) ir y }) := by
  constructor
  · have h := tg_from_eq_ref dy ad tr ir (dy + gy) 0
    simpa using h
  · have h := etf_from_eq_ref dy ad er ir (dy + gy) 0
    simpa using h

lemma tg_from_lb (dy : ℕ) (ad tr ir : ℚ) (had : 0 ≤ ad) (htr : 0 ≤ tr) :
    ∀ (n y : ℕ) (b : ℚ), 0 ≤ b →
      ∀ r ∈ simulate_tagesgeld_from dy ad tr ir n y b,
        b ≤ r.tg_balance ∧ 0 ≤ r.tg_balance := by
  intro n
  induction n with
  | zero =>
    intro y b hb r hr
    simp [simulate_tagesgeld_from] at hr
  | succ n ih =>
    intro y b hb r hr
    have hdep : 0 ≤ (if y ≤ dy then ad else 0) := by
      by_cases h : y ≤ dy
      · rw [if_pos h]
        exact had
      · rw [if_neg h]
    have hb2 : 0 ≤ (b + if y ≤ dy then ad else 0) * (1 + tr) :=
      mul_nonneg (add_nonneg hb hdep) (by linarith)
    have hbb2 : b ≤ (b + if y ≤ dy then ad else 0) * (1 + tr) := by
      nlinarith [mul_nonneg hb htr, mul_nonneg hdep htr]
    simp only [simulate_tagesgeld_from, List.mem_cons] at hr
    rcases hr with h | h
    · subst h
      exact ⟨hbb2, hb2⟩
    · obtain ⟨hh1, hh2⟩ := ih (y + 1) _ hb2 r h
      exact ⟨le_trans hbb2 hh1, hh2⟩

lemma etf_from_lb (dy : ℕ) (ad er ir : ℚ) (had : 0 ≤ ad) (her : 0 ≤ er) :
    ∀ (n y : ℕ) (b : ℚ), 0 ≤ b →
      ∀ r ∈ simulate_etf_from dy ad er ir n y b,
        b ≤ r.etf_balance ∧ 0 ≤ r.etf_balance := by
  intro n
  induction n with
  | zero =>
    intro y b hb r hr
    simp [simulate_etf_from] at hr
  | succ n ih =>
    intro y b hb r hr
    have hdep : 0 ≤ (if y ≤ dy then ad else 0) := by
      by_cases h : y ≤ dy
      · rw [if_pos h]
        exact had
      · rw [if_neg h]
    have hb2 : 0 ≤ (b + if y ≤ dy then ad else 0) * (1 + er) :=
      mul_nonneg (add_nonneg hb hdep) (by linarith)
    have hbb2 : b ≤ (b + if y ≤ dy then ad else 0) * (1 + er) := by
      nlinarith [mul_nonneg hb her, mul_nonneg hdep her]
    simp only [simulate_etf_from, List.mem_cons] at hr
    rcases hr with h | h
    · subst h
      exact ⟨hbb2, hb2⟩
    · obtain ⟨hh1, hh2⟩ := ih (y + 1) _ hb2 r h
      exact ⟨le_trans hbb2 hh1, hh2⟩

lemma tg_from_chain (dy : ℕ) (ad tr ir : ℚ) (had : 0 ≤ ad) (htr : 0 ≤ tr) :
    ∀ (n y : ℕ) (b : ℚ), 0 ≤ b →
      List.Chain' (fun a c => a.total_nominal ≤ c.total_nominal)
        (simulate_tagesgeld_from dy ad tr ir n y b) := by
  intro n
  induction n with
  | zero =>
    intro y b hb
    simp [simulate_tagesgeld_from]
  | succ n ih =>
    intro y b hb
    have hdep : 0 ≤ (if y ≤ dy then ad else 0) := by
      by_cases h : y ≤ dy
      · rw [if_pos h]
        exact had
      · rw [if_neg h]
    have hb2 : 0 ≤ (b + if y ≤ dy then ad else 0) * (1 + tr) :=
      mul_nonneg (add_nonneg hb hdep) (by linarith)
    simp only [simulate_tagesgeld_from]
    rw [List.chain'_cons']
    constructor
    · intro z hz
      have hzmem := List.mem_of_mem_head? hz
      have hlb := (tg_from_lb dy ad tr ir had htr n (y + 1) _ hb2 z hzmem).1
      have hsnap := (tg_from_snap dy ad tr ir n (y + 1) _ z hzmem).2.1
      rw [hsnap]
      exact hlb
    · exact ih (y + 1) _ hb2

lemma etf_from_chain (dy : ℕ) (ad er ir : ℚ) (had : 0 ≤ ad) (her : 0 ≤ er) :
    ∀ (n y : ℕ) (b : ℚ), 0 ≤ b →
      List.Chain' (fun a c => a.total_nominal ≤ c.total_nominal)
        (simulate_etf_from dy ad er ir n y b) := by
  intro n
  induction n with
  | zero =>
    intro y b hb
    simp [simulate_etf_from]
  | succ n ih =>
    intro y b hb
    have hdep : 0 ≤ (if y ≤ dy then ad else 0) := by
      by_cases h : y ≤ dy
      · rw [if_pos h]
        exact had
      · rw [if_neg h]
    have hb2 : 0 ≤ (b + if y ≤ dy then ad else 0) * (1 + er) :=
      mul_nonneg (add_nonneg hb hdep) (by linarith)
    simp only [simulate_etf_from]
    rw [List.chain'_cons']
    constructor
    · intro z hz
      have hzmem := List.mem_of_mem_head? hz
      have hlb := (etf_from_lb dy ad er ir had her n (y + 1) _ hb2 z hzmem).1
      have hsnap := (etf_from_snap dy ad er ir n (y + 1) _ z hzmem).2.1
      rw [hsnap]
      exact hlb
    · exact ih (y + 1) _ hb2

lemma combo_alloc_bounds (target deposit tg : ℚ) (hd : 0 ≤ deposit)
    (htg : 0 ≤ tg) :
    0 ≤ (combo_alloc target deposit tg).1 ∧
      0 ≤ (combo_alloc target deposit tg).2 ∧
      (combo_alloc target deposit tg).1 + (combo_alloc target deposit tg).2
        = tg + deposit := by
  unfold combo_alloc
  by_cases h : tg < target ∧ 0 < deposit
  · rw [if_pos h]
    have hmin1 : 0 ≤ min deposit (target - tg) := le_min hd (by linarith [h.1])
    have hmin2 : min deposit (target - tg) ≤ deposit := min_le_left _ _
    refine ⟨?_, ?_, ?_⟩
    · show 0 ≤ tg + min deposit (target - tg)
      linarith
    · show 0 ≤ deposit - min deposit (target - tg)
      linarith
    · show tg + min deposit (target - tg)
          + (deposit - min deposit (target - tg)) = tg + deposit
      ring
  · rw [if_neg h]
    exact ⟨htg, hd, rfl⟩

lemma combo_sweep_bounds (target tg etf : ℚ) (htarget : 0 ≤ target)
    (htg : 0 ≤ tg) (hetf : 0 ≤ etf) :
    0 ≤ (combo_sweep target tg etf).1 ∧ 0 ≤ (combo_sweep target tg etf).2 := by
  unfold combo_sweep
  by_cases h : target < tg
  · rw [if_pos h]
    refine ⟨htarget, ?_⟩
    show 0 ≤ etf + (tg - target)
    linarith
  · rw [if_neg h]
    exact ⟨htg, hetf⟩

lemma combo_year_invariant (tr er target deposit tg etf : ℚ)
    (htr : 0 ≤ tr) (her : 0 ≤ er) (htarget : 0 ≤ target) (hdep : 0 ≤ deposit)
    (htg : 0 ≤ tg) (hetf : 0 ≤ etf) :
    0 ≤ (combo_sweep target ((combo_alloc target deposit tg).1 * (1 + tr))
          ((etf + (combo_alloc target deposit tg).2) * (1 + er))).1 ∧
    0 ≤ (combo_sweep target ((combo_alloc target deposit tg).1 * (1 + tr))
          ((etf + (combo_alloc target deposit tg).2) * (1 + er))).2 ∧
    tg + etf
      ≤ (combo_sweep target ((combo_alloc target deposit tg).1 * (1 + tr))
            ((etf + (combo_alloc target deposit tg).2) * (1 + er))).1
        + (combo_sweep target ((combo_alloc target deposit tg).1 * (1 + tr))
            ((etf + (combo_alloc target deposit tg).2) * (1 + er))).2 := by
  obtain ⟨ha1, ha2, hasum⟩ := combo_alloc_bounds target deposit tg hdep htg
  have htg2 : 0 ≤ (combo_alloc target deposit tg).1 * (1 + tr) :=
    mul_nonneg ha1 (by linarith)
  have hetf1 : 0 ≤ etf + (combo_alloc target deposit tg).2 := add_nonneg hetf ha2
  have hetf2 : 0 ≤ (etf + (combo_alloc target deposit tg).2) * (1 + er) :=
    mul_nonneg hetf1 (by linarith)
  obtain ⟨hs1, hs2⟩ := combo_sweep_bounds target _ _ htarget htg2 hetf2
  refine ⟨hs1, hs2, ?_⟩
  rw [combo_sweep_sum]
  nlinarith [mul_nonneg ha1 htr, mul_nonneg hetf1 her]

lemma combo_from_lb (p : ComboParams)
    (had : 0 ≤ p.annual_deposit) (htr : 0 ≤ p.tg_rate) (her : 0 ≤ p.etf_rate)
    (htf : 0 ≤ p.tg_target_first) (hta : 0 ≤ p.tg_target_after) :
    ∀ (n y : ℕ) (tg etf : ℚ), 0 ≤ tg → 0 ≤ etf →
      ∀ r ∈ simulate_combo_from p n y tg etf,
        0 ≤ r.tg_balance ∧ 0 ≤ r.etf_balance ∧ tg + etf ≤ r.total_nominal := by
  intro n
  induction n with
  | zero =>
    intro y tg etf htg hetf r hr
    simp [simulate_combo_from] at hr
  | succ n ih =>
    intro y tg etf htg hetf r hr
    have htarget :
        0 ≤ (if y ≤ p.years_first_target then p.tg_target_first
              else p.tg_target_after) := by
      by_cases h : y ≤ p.years_first_target
      · rw [if_pos h]
        exact htf
      · rw [if_neg h]
        exact hta
    have hdep : 0 ≤ (if y ≤ p.deposit_years then p.annual_deposit else 0) := by
      by_cases h : y ≤ p.deposit_years
      · rw [if_pos h]
        exact had
      · rw [if_neg h]
    have key := combo_year_invariant p.tg_rate p.etf_rate
      (if y ≤ p.years_first_target then p.tg_target_first else p.tg_target_after)
      (if y ≤ p.deposit_years then p.annual_deposit else 0) tg etf
      htr her htarget hdep htg hetf
    have hout1 : 0 ≤ (combo_step p y tg etf).2.1 := key.1
    have hout2 : 0 ≤ (combo_step p y tg etf).2.2 := key.2.1
    have houtsum :
        tg + etf ≤ (combo_step p y tg etf).2.1 + (combo_step p y tg etf).2.2 :=
      key.2.2
    simp only [simulate_combo_from, List.mem_cons] at hr
    rcases hr with h | h
    · subst h
      exact ⟨hout1, hout2, houtsum⟩
    · obtain ⟨hh1, hh2, hh3⟩ := ih (y + 1) _ _ hout1 hout2 r h
      exact ⟨hh1, hh2, le_trans houtsum hh3⟩

lemma combo_from_chain (p : ComboParams)
    (had : 0 ≤ p.annual_deposit) (htr : 0 ≤ p.tg_rate) (her : 0 ≤ p.etf_rate)
    (htf : 0 ≤ p.tg_target_first) (hta : 0 ≤ p.tg_target_after) :
    ∀ (n y : ℕ) (tg etf : ℚ), 0 ≤ tg → 0 ≤ etf →
      List.Chain' (fun a c => a.total_nominal ≤ c.total_nominal)
        (simulate_combo_from p n y tg etf) := by
  intro n
  induction n with
  | zero =>
    intro y tg etf htg hetf
    simp [simulate_combo_from]
  | succ n ih =>
    intro y tg etf htg hetf
    have htarget :
        0 ≤ (if y ≤ p.years_first_target then p.tg_target_first
              else p.tg_target_after) := by
      by_cases h : y ≤ p.years_first_target
      · rw [if_pos h]
        exact htf
      · rw [if_neg h]
        exact hta
    have hdep : 0 ≤ (if y ≤ p.deposit_years then p.annual_deposit else 0) := by
      by_cases h : y ≤ p.deposit_years
      · rw [if_pos h]
        exact had
      · rw [if_neg h]
    have key := combo_year_invariant p.tg_rate p.etf_rate
      (if y ≤ p.years_first_target then p.tg_target_first else p.tg_target_after)
      (if y ≤ p.deposit_years then p.annual_deposit else 0) tg etf
      htr her htarget hdep htg hetf
    have hout1 : 0 ≤ (combo_step p y tg etf).2.1 := key.1
    have hout2 : 0 ≤ (combo_step p y tg etf).2.2 := key.2.1
    simp only [simulate_combo_from]
    rw [List.chain'_cons']
    constructor
    · intro z hz
      have hzmem := List.mem_of_mem_head? hz
      have hlb := (combo_from_lb p had htr her htf hta n (y + 1) _ _
        hout1 hout2 z hzmem).2.2
      exact hlb
    · exact ih (y + 1) _ _ hout1 hout2

/-- C7: with non-negative rates, deposit and (for the hybrid) targets, the
`total_nominal` field is non-decreasing from each snapshot to the next in
all three simulations. -/
theorem total_nominal_monotone (dy gy yft : ℕ) (ad tr er ir tf ta : ℚ)
    (had : 0 ≤ ad) (htr : 0 ≤ tr) (her : 0 ≤ er) (hir : 0 ≤ ir)
    (htf : 0 ≤ tf) (hta : 0 ≤ ta) :
    List.Chain' (fun a c => a.total_nominal ≤ c.total_nominal)
      (simulate_tagesgeld dy gy ad tr ir) ∧
    List.Chain' (fun a c => a.total_nominal ≤ c.total_nominal)
      (simulate_etf dy gy ad er ir) ∧
    List.Chain' (fun a c => a.total_nominal ≤ c.total_nominal)
      (simulate_combo dy gy ad tr er ir tf ta yft) := by
  refine ⟨?_, ?_, ?_⟩
  · exact tg_from_chain dy ad tr ir had htr (dy + gy) 1 0 le_rfl
  · exact etf_from_chain dy ad er ir had her (dy + gy) 1 0 le_rfl
  · exact combo_from_chain
      { deposit_years := dy, annual_deposit := ad, tg_rate := tr,
        etf_rate := er, inflation_rate := ir, tg_target_first := tf,
        tg_target_after := ta, years_first_target := yft }
      had htr her htf hta (dy + gy) 1 0 0 le_rfl le_rfl

/-- Witness for C7: concrete non-negative inputs (2 deposit years, 1 growth
year, deposit 1000, rates 10% / 5% / 2%, targets 500 then 800). -/
theorem total_nominal_monotone_witness :
    List.Chain' (fun a c => a.total_nominal ≤ c.total_nominal)
      (simulate_tagesgeld 2 1 1000 (1/10) (1/50)) ∧
    List.Chain' (fun a c => a.total_nominal ≤ c.total_nominal)
      (simulate_etf 2 1 1000 (1/20) (1/50)) ∧
    List.Chain' (fun a c => a.total_nominal ≤ c.total_nominal)
      (simulate_combo 2 1 1000 (1/10) (1/20) (1/50) 500 800 1) :=
  total_nominal_monotone 2 1 1 1000 (1/10) (1/20) (1/50) 500 800
    (by norm_num) (by norm_num) (by norm_num) (by norm_num) (by norm_num)
    (by norm_num)

/-- C8: with non-negative rates, deposit and (for the hybrid) targets, both
balance fields are non-negative in every snapshot of all three
simulations. -/
theorem balances_nonneg (dy gy yft : ℕ) (ad tr er ir tf ta : ℚ)
    (had : 0 ≤ ad) (htr : 0 ≤ tr) (her : 0 ≤ er) (hir : 0 ≤ ir)
    (htf : 0 ≤ tf) (hta : 0 ≤ ta) :
    (∀ r ∈ simulate_tagesgeld dy gy ad tr ir,
        0 ≤ r.tg_balance ∧ 0 ≤ r.etf_balance) ∧
    (∀ r ∈ simulate_etf dy gy ad er ir,
        0 ≤ r.tg_balance ∧ 0 ≤ r.etf_balance) ∧
    (∀ r ∈ simulate_combo dy gy ad tr er ir tf ta yft,
        0 ≤ r.tg_balance ∧ 0 ≤ r.etf_balance) := by
  refine ⟨?_, ?_, ?_⟩
  · intro r hr
    refine ⟨(tg_from_lb dy ad tr ir had htr (dy + gy) 1 0 le_rfl r hr).2, ?_⟩
    rw [(tg_from_snap dy ad tr ir (dy + gy) 1 0 r hr).1]
  · intro r hr
    refine ⟨?_, (etf_from_lb dy ad er ir had her (dy + gy) 1 0 le_rfl r hr).2⟩
    rw [(etf_from_snap dy ad er ir (dy + gy) 1 0 r hr).1]
  · intro r hr
    have h := combo_from_lb
      { deposit_years := dy, annual_deposit := ad, tg_rate := tr,
        etf_rate := er, inflation_rate := ir, tg_target_first := tf,
        tg_target_after := ta, years_first_target := yft }
      had htr her htf hta (dy + gy) 1 0 0 le_rfl le_rfl r hr
    exact ⟨h.1, h.2.1⟩

/-- Witness for C8: the single snapshot of the concrete savings-only run
has non-negative balances. -/
theorem balances_nonneg_witness : (0 : ℚ) ≤ 1100 ∧ (0 : ℚ) ≤ 0 := by
  have h := (balances_nonneg 1 0 0 1000 (1/10) 0 0 0 0
      (by norm_num) (by norm_num) (by norm_num) (by norm_num) (by norm_num)
      (by norm_num)).1
    { year := 1, deposit := 1000, tg_balance := 1100, etf_balance := 0,
      total_nominal := 1100, total_real := 1100 }
    (by norm_num [simulate_tagesgeld, simulate_tagesgeld_from, real_value])
  exact h
